import Mathlib

/-!
Verification development for the paginated query engine of the `camper`
command-line client (src/client/mod.rs and src/client/request.rs).

The Rust source is shallowly embedded: pure data shapes become structures,
the paginated fetch loop of `List::list` becomes a recursion over a finite
script of server replies, and the wall clock is an explicit parameter
(`now`, the Unix timestamp `Utc::now().timestamp()` observed at invocation
start).  Machine integers (`u32`) are modelled as `Nat`; timestamps as `Int`
seconds since the Unix epoch.
-/

namespace Camper

/-! ## RFC-2822 date-time parsing

Models chrono's `DateTime::parse_from_rfc2822` on the standard RFC-2822
shape `[day-of-week ", "] day month year hour ":" minute [":" second] zone`,
with numeric `+HHMM`/`-HHMM` zones and the named zones of RFC 2822.
A parsed value is an instant (seconds since the Unix epoch) together with
the fixed offset it was written in, mirroring chrono's `DateTime<FixedOffset>`.
-/

/-- chrono `DateTime<FixedOffset>`: an absolute instant plus the fixed UTC
offset of its representation.  `epochSeconds` is timezone-independent. -/
structure FixedDateTime where
  epochSeconds : Int
  offsetSeconds : Int
deriving DecidableEq, Repr

/-- chrono's `with_timezone(&Utc)`: re-express the same instant in UTC.
A `DateTime<Utc>` is just the instant, as epoch seconds. -/
def FixedDateTime.with_timezone_utc (dt : FixedDateTime) : Int :=
  dt.epochSeconds

def digitVal (c : Char) : Nat := c.toNat - 48

def natOfDigits (ds : List Char) : Nat :=
  ds.foldl (fun a c => a * 10 + digitVal c) 0

def skipSpaces (cs : List Char) : List Char :=
  cs.dropWhile (fun c => c = ' ')

def dayNames : List String :=
  ["Mon", "Tue", "Wed", "Thu", "Fri", "Sat", "Sun"]

def monthNum (s : String) : Option Nat :=
  if s = "Jan" then some 1
  else if s = "Feb" then some 2
  else if s = "Mar" then some 3
  else if s = "Apr" then some 4
  else if s = "May" then some 5
  else if s = "Jun" then some 6
  else if s = "Jul" then some 7
  else if s = "Aug" then some 8
  else if s = "Sep" then some 9
  else if s = "Oct" then some 10
  else if s = "Nov" then some 11
  else if s = "Dec" then some 12
  else none

/-- Named time zones admitted by RFC 2822 (offset in seconds). -/
def namedZoneOffset (s : String) : Option Int :=
  if s = "GMT" then some 0
  else if s = "UT" then some 0
  else if s = "EST" then some (-18000)
  else if s = "EDT" then some (-14400)
  else if s = "CST" then some (-21600)
  else if s = "CDT" then some (-18000)
  else if s = "MST" then some (-25200)
  else if s = "MDT" then some (-21600)
  else if s = "PST" then some (-28800)
  else if s = "PDT" then some (-25200)
  else none

def isLeapYear (y : Nat) : Bool :=
  y % 4 = 0 && (y % 100 ≠ 0 || y % 400 = 0)

def daysInMonth (y m : Nat) : Nat :=
  if m = 2 then (if isLeapYear y then 29 else 28)
  else if m = 4 || m = 6 || m = 9 || m = 11 then 30
  else 31

/-- Days from 1970-01-01 to the civil date `y-m-d` (proleptic Gregorian,
`y ≥ 1`).  Howard Hinnant's `days_from_civil`, in `Nat` arithmetic shifted
by the epoch's civil day number 719468 (counted from 0000-03-01). -/
def epochDays (y m d : Nat) : Int :=
  let yAdj : Nat := if m ≤ 2 then y - 1 else y
  let era : Nat := yAdj / 400
  let yoe : Nat := yAdj % 400
  let mp : Nat := if m > 2 then m - 3 else m + 9
  let doy : Nat := (153 * mp + 2) / 5 + d - 1
  let doe : Nat := yoe * 365 + yoe / 4 - yoe / 100 + doy
  (era * 146097 + doe : Nat) - (719468 : Int)

/-- Assemble a `FixedDateTime` from parsed civil fields and a zone offset,
validating ranges as chrono does. -/
def mkFixedDateTime (y m d hh mi ss : Nat) (offset : Int) : Option FixedDateTime :=
  if 1 ≤ y && 1 ≤ m && m ≤ 12 && 1 ≤ d && d ≤ daysInMonth y m
      && hh ≤ 23 && mi ≤ 59 && ss ≤ 59 then
    some ⟨epochDays y m d * 86400 + (hh * 3600 + mi * 60 + ss : Nat) - offset, offset⟩
  else
    none

/-- Parse one or two leading decimal digits. -/
def parseDay : List Char → Option (Nat × List Char)
  | c1 :: c2 :: rest =>
    if c1.isDigit then
      if c2.isDigit then some (digitVal c1 * 10 + digitVal c2, rest)
      else some (digitVal c1, c2 :: rest)
    else none
  | [c1] => if c1.isDigit then some (digitVal c1, []) else none
  | [] => none

/-- Parse exactly two decimal digits. -/
def parseTwoDigits : List Char → Option (Nat × List Char)
  | c1 :: c2 :: rest =>
    if c1.isDigit && c2.isDigit then some (digitVal c1 * 10 + digitVal c2, rest)
    else none
  | _ => none

/-- Parse the year: a run of digits, with RFC 2822's obsolete two- and
three-digit forms mapped the way chrono maps them. -/
def parseYear (cs : List Char) : Option (Nat × List Char) :=
  let ds := cs.takeWhile Char.isDigit
  let rest := cs.dropWhile Char.isDigit
  let n := natOfDigits ds
  if ds.length = 2 then some (if n < 50 then 2000 + n else 1900 + n, rest)
  else if ds.length = 3 then some (1900 + n, rest)
  else if ds.length ≥ 4 then some (n, rest)
  else none

/-- Parse a `+HHMM`/`-HHMM` numeric zone body (after the sign). -/
def parseNumericZone (cs : List Char) : Option (Nat × List Char) :=
  match parseTwoDigits cs with
  | none => none
  | some (hh, rest) =>
    match parseTwoDigits rest with
    | none => none
    | some (mm, rest2) =>
      if mm ≤ 59 then some (hh * 3600 + mm * 60, rest2) else none

/-- Parse the zone, returning the offset in seconds. -/
def parseZone (cs : List Char) : Option (Int × List Char) :=
  match cs with
  | '+' :: rest =>
    (parseNumericZone rest).map (fun p => ((p.1 : Int), p.2))
  | '-' :: rest =>
    (parseNumericZone rest).map (fun p => (-(p.1 : Int), p.2))
  | _ =>
    let ls := cs.takeWhile Char.isAlpha
    let rest := cs.dropWhile Char.isAlpha
    match namedZoneOffset (String.mk ls) with
    | some off => some (off, rest)
    | none => none

/-- Parse `":" second` if present; RFC 2822 makes the seconds optional. -/
def parseOptSeconds : List Char → Option (Nat × List Char)
  | ':' :: rest => parseTwoDigits rest
  | cs => some (0, cs)

/-- The date-time part after the optional day-of-week has been removed:
`day month year hour ":" minute [":" second] zone`. -/
def parseDateTimeBody (cs : List Char) : Option FixedDateTime :=
  match parseDay (skipSpaces cs) with
  | none => none
  | some (d, cs1) =>
    let cs2 := skipSpaces cs1
    let mls := cs2.takeWhile Char.isAlpha
    let cs3 := cs2.dropWhile Char.isAlpha
    match monthNum (String.mk mls) with
    | none => none
    | some m =>
      match parseYear (skipSpaces cs3) with
      | none => none
      | some (y, cs4) =>
        match parseTwoDigits (skipSpaces cs4) with
        | none => none
        | some (hh, cs5) =>
          match cs5 with
          | ':' :: cs6 =>
            match parseTwoDigits cs6 with
            | none => none
            | some (mi, cs7) =>
              match parseOptSeconds cs7 with
              | none => none
              | some (ss, cs8) =>
                match parseZone (skipSpaces cs8) with
                | none => none
                | some (off, cs9) =>
                  if skipSpaces cs9 = [] then mkFixedDateTime y m d hh mi ss off
                  else none
          | _ => none

/-- chrono `DateTime::parse_from_rfc2822`: parse an RFC-2822 date-time
string into an instant plus its fixed offset. -/
def parse_from_rfc2822 (s : String) : Option FixedDateTime :=
  match s.toList with
  | a :: b :: c :: ',' :: rest =>
    if dayNames.contains (String.mk [a, b, c]) then parseDateTimeBody rest
    else none
  | cs => parseDateTimeBody cs

/-! ## The `added` field deserializer (request.rs, `deserialize_rfc2822_datetime`)

```rust
let buf = String::deserialize(deserializer)?;
let utc = DateTime::parse_from_rfc2822(&buf).unwrap().with_timezone(&Utc);
Ok(utc)
```

The input JSON value either is a string or is not (`String::deserialize`
fails with a serde error, propagated by `?`).  On a string that fails
RFC-2822 parsing the code calls `.unwrap()`, which panics — it does not
produce an `Err`.  The three outcomes are kept apart. -/

/-- The JSON value found at the `added` field: a string, or anything else. -/
inductive JsonValue where
  | str (s : String)
  | nonString
deriving DecidableEq, Repr

/-- Outcome of running `deserialize_rfc2822_datetime` on one JSON value:
a UTC timestamp, a serde error returned via `?`, or a panic from `.unwrap()`. -/
inductive DeserResult where
  | ok (addedUtc : Int)
  | err
  | panicked
deriving DecidableEq, Repr

def deserialize_rfc2822_datetime : JsonValue → DeserResult
  | .nonString => .err
  | .str s =>
    match parse_from_rfc2822 s with
    | some dt => .ok dt.with_timezone_utc
    | none => .panicked

/-! ## Data shapes (request.rs) -/

/-- request.rs `QueryItem`: one collection/wishlist entry.  `added` is the
decoded `DateTime<Utc>` (epoch seconds). -/
structure QueryItem where
  added : Int
  band_name : String
  album_id : Nat
  album_title : String
deriving DecidableEq, Repr

/-- request.rs `QueryRequestData`: the JSON body of one page request.
`token` is serialized under the name `older_than_token`. -/
structure QueryRequestData where
  fan_id : Nat
  token : String
  count : Nat
deriving DecidableEq, Repr

/-- request.rs `QueryRequestData::DEFAULT_COUNT`. -/
def DEFAULT_COUNT : Nat := 20

/-- request.rs `QueryRequestData::new`: fixed `count`, no caller input. -/
def QueryRequestData.new (fan_id : Nat) (token : String) : QueryRequestData :=
  { fan_id := fan_id, token := token, count := DEFAULT_COUNT }

/-- request.rs `QueryResponseData`: one decoded page. -/
structure QueryResponseData where
  items : List QueryItem
  last_token : String
  more_available : Bool
deriving DecidableEq, Repr

/-! ## One page fetch (request.rs, `QueryBuilder`) -/

/-- request.rs `utc_now_token`, with the wall clock an explicit argument:
`format!("...:0:a::", Utc::now().timestamp())`. -/
def utc_now_token (now : Int) : String :=
  toString now ++ ":0:a::"

/-- request.rs `QueryBuilder` (url, fan_id, token), extended with the
`identity` field.  Modelled from the spec: the `identity` setter that
`List::list` invokes lives in the `query` module, whose file is absent from
the sources; per the spec it stores an opaque session credential to be
attached to the request as a header/cookie, unmodified.  `Default` gives
`fan_id = 0`, `token = None`, empty strings. -/
structure QueryBuilder where
  url : String
  fan_id : Nat
  token : Option String
  identity : String
deriving DecidableEq, Repr

def QueryBuilder.new (url : String) : QueryBuilder :=
  { url := url, fan_id := 0, token := none, identity := "" }

def QueryBuilder.set_fan_id (b : QueryBuilder) (fan_id : Nat) : QueryBuilder :=
  { b with fan_id := fan_id }

def QueryBuilder.set_token (b : QueryBuilder) (token : String) : QueryBuilder :=
  { b with token := some token }

/-- Modelled from the spec: the `identity` setter (absent `query` module)
stores the opaque credential without inspecting it. -/
def QueryBuilder.set_identity (b : QueryBuilder) (identity : String) : QueryBuilder :=
  { b with identity := identity }

/-- The HTTP request `QueryBuilder::query` sends: POST `url`, JSON body
`QueryRequestData`, and (modelled from the spec) the identity credential
attached verbatim as a header/cookie. -/
structure OutboundRequest where
  url : String
  identityCookie : String
  body : QueryRequestData
deriving DecidableEq, Repr

/-- request.rs `QueryBuilder::query`, the request-shaping half: the token
falls back to `utc_now_token()` when none was set (`now` is the wall clock
at that moment). -/
def QueryBuilder.builtRequest (b : QueryBuilder) (now : Int) : OutboundRequest :=
  let token : String :=
    match b.token with
    | some t => t
    | none => utc_now_token now
  { url := b.url, identityCookie := b.identity, body := QueryRequestData.new b.fan_id token }

/-- Failure of one page fetch, as surfaced by the `?` operators in
`QueryBuilder::query`: `send()` failed (connection/timeout), or
`json::<QueryResponseData>()` failed (body did not decode). -/
inductive QueryError where
  | transport
  | decode
deriving DecidableEq, Repr

/-- What the server does with one request: fail at transport level, or
deliver an HTTP response with a status code and a body that either decodes
as a `QueryResponseData` or does not. -/
inductive ServerReply where
  | failure
  | response (status : Nat) (body : Except Unit QueryResponseData)
deriving Repr

/-- request.rs `QueryBuilder::query`, the response half.  `send().await?`
errors only on transport failure — reqwest does not turn a non-2xx status
into an error (the code never calls `error_for_status`), so the status code
is ignored and the body is decoded regardless. -/
def queryResult : ServerReply → Except QueryError QueryResponseData
  | .failure => .error .transport
  | .response _ (.ok page) => .ok page
  | .response _ (.error _) => .error .decode

/-! ## The paginated engine (mod.rs, `List::list`) -/

/-- mod.rs: the endpoint URL built by `List::list` from the resource kind's
`COLLECTION_NAME`. -/
def listUrl (collectionName : String) : String :=
  "https://bandcamp.com/api/fancollection/1/" ++ collectionName ++ "_items"

/-- mod.rs `Collection`'s `COLLECTION_NAME`. -/
def Collection.COLLECTION_NAME : String := "collection"

/-- mod.rs `Wishlist`'s `COLLECTION_NAME`. -/
def Wishlist.COLLECTION_NAME : String := "wishlist"

/-- One loop iteration's request, as `List::list` assembles it:
`QueryBuilder::new(&url).fan_id(fan_id).identity(&identity).token(&token).query()`. -/
def builtReq (fan_id : Nat) (identity url token : String) (now : Int) : OutboundRequest :=
  ((((QueryBuilder.new url).set_fan_id fan_id).set_identity identity).set_token
    token).builtRequest now

/-- `items.extend(response.items)` as observed by the caller: when a later
iteration's `?` propagates an error, the locally accumulated items are
discarded and only the error is returned. -/
def prependItems (items : List QueryItem) :
    Except QueryError (List QueryItem) → Except QueryError (List QueryItem)
  | .ok more => .ok (items ++ more)
  | .error e => .error e

/-- The fetch loop of `List::list`, run against a finite script of server
replies (reply `n` answers request `n`).  Each iteration builds the request
via the builder, then: on fetch error the `?` operator returns the error,
discarding accumulated items; on success the page's items are appended, the
token replaced by `last_token`, and the loop ends iff `more_available` is
false.  Returns `none` when the script is exhausted with the loop still
demanding another page, otherwise the requests issued and the outcome. -/
def listRun (fan_id : Nat) (identity : String) (url : String) (token : String)
    (now : Int) :
    List ServerReply → Option (List OutboundRequest × Except QueryError (List QueryItem))
  | [] => none
  | reply :: rest =>
    match queryResult reply with
    | .error e => some ([builtReq fan_id identity url token now], .error e)
    | .ok page =>
      if page.more_available then
        (listRun fan_id identity url page.last_token now rest).map
          (fun out => (builtReq fan_id identity url token now :: out.1,
            prependItems page.items out.2))
      else
        some ([builtReq fan_id identity url token now], .ok page.items)

/-- mod.rs `List::list`: seed the token with `utc_now_token()` at invocation
start (`now` is the wall clock then), aim at the resource kind's endpoint,
and drain the loop. -/
def list (collectionName : String) (fan_id : Nat) (identity : String) (now : Int)
    (server : List ServerReply) :
    Option (List OutboundRequest × Except QueryError (List QueryItem)) :=
  listRun fan_id identity (listUrl collectionName) (utc_now_token now) now server

/-- A page delivered as a decodable body with HTTP status 200. -/
def okReply (page : QueryResponseData) : ServerReply :=
  .response 200 (.ok page)

/-- A run with the outbound requests' opaque identity cookie erased,
keeping the url, the JSON body and the outcome.  Used to state that the
engine's behaviour does not depend on the credential's content. -/
def stripIdentity :
    Option (List OutboundRequest × Except QueryError (List QueryItem)) →
      Option (List (String × QueryRequestData) × Except QueryError (List QueryItem))
  | none => none
  | some (reqs, res) => some (reqs.map (fun r => (r.url, r.body)), res)

/-! ## Concrete fixtures for witnesses (the spec's end-to-end scenario) -/

def itemA : QueryItem := ⟨1136239445, "Artist A", 101, "Album A"⟩

def itemB : QueryItem := ⟨1136240000, "Artist B", 102, "Album B"⟩

def itemC : QueryItem := ⟨1136250000, "Artist C", 103, "Album C"⟩

/-- Page 1 of the spec's end-to-end scenario: two items, more available. -/
def pageAB : QueryResponseData := ⟨[itemA, itemB], "t1", true⟩

/-- Page 2 of the spec's end-to-end scenario: one item, last page. -/
def pageC : QueryResponseData := ⟨[itemC], "t2", false⟩

/-- The spec's empty-collection scenario: a single empty final page. -/
def emptyDonePage : QueryResponseData := ⟨[], "t1", false⟩

/-- An empty page that still announces more results. -/
def emptyMorePage : QueryResponseData := ⟨[], "t3", true⟩

def sampleScript : List ServerReply := [okReply pageAB, okReply pageC]

/-! ## Helper lemmas -/

theorem builtReq_eq (fan_id : Nat) (identity url token : String) (now : Int) :
    builtReq fan_id identity url token now =
      ⟨url, identity, QueryRequestData.new fan_id token⟩ := rfl

theorem utc_now_token_ne_empty (now : Int) : utc_now_token now ≠ "" := by
  intro h
  have h2 := congrArg String.data h
  rw [utc_now_token, String.congr_append] at h2
  simp at h2

theorem listRun_requests_shape (fan_id : Nat) (identity url : String) (now : Int) :
    ∀ (script : List ServerReply) (token : String) (reqs : List OutboundRequest)
      (res : Except QueryError (List QueryItem)),
      listRun fan_id identity url token now script = some (reqs, res) →
      ∀ r ∈ reqs, r.url = url ∧ r.identityCookie = identity ∧
        r.body.fan_id = fan_id ∧ r.body.count = DEFAULT_COUNT := by
  intro script
  induction script with
  | nil =>
    intro token reqs res h
    simp [listRun] at h
  | cons reply rest ih =>
    intro token reqs res h
    simp only [listRun] at h
    cases hq : queryResult reply with
    | error e =>
      rw [hq] at h
      simp only [Option.some.injEq, Prod.mk.injEq] at h
      obtain ⟨h1, -⟩ := h
      intro r hr
      rw [← h1] at hr
      simp only [List.mem_singleton] at hr
      subst hr
      exact ⟨rfl, rfl, rfl, rfl⟩
    | ok page =>
      rw [hq] at h
      dsimp only at h
      by_cases hm : page.more_available = true
      · rw [if_pos hm] at h
        rcases hrec : listRun fan_id identity url page.last_token now rest with - | ⟨reqs', res'⟩
        · rw [hrec] at h
          simp at h
        · rw [hrec] at h
          simp only [Option.map_some', Option.some.injEq, Prod.mk.injEq] at h
          obtain ⟨h1, -⟩ := h
          intro r hr
          rw [← h1] at hr
          rcases List.mem_cons.mp hr with hr | hr
          · subst hr
            exact ⟨rfl, rfl, rfl, rfl⟩
          · exact ih page.last_token reqs' res' hrec r hr
      · rw [if_neg hm] at h
        simp only [Option.some.injEq, Prod.mk.injEq] at h
        obtain ⟨h1, -⟩ := h
        intro r hr
        rw [← h1] at hr
        simp only [List.mem_singleton] at hr
        subst hr
        exact ⟨rfl, rfl, rfl, rfl⟩

theorem listRun_drain (fan_id : Nat) (identity url : String) (now : Int) :
    ∀ (front : List QueryResponseData) (lastp : QueryResponseData) (token : String),
      (∀ p ∈ front, p.more_available = true) → lastp.more_available = false →
      listRun fan_id identity url token now ((front ++ [lastp]).map okReply) =
        some ((token :: front.map QueryResponseData.last_token).map
          (fun t => builtReq fan_id identity url t now),
          .ok (((front ++ [lastp]).map QueryResponseData.items).flatten)) := by
  intro front
  induction front with
  | nil =>
    intro lastp token hmid hlast
    simp [listRun, queryResult, okReply, hlast]
  | cons f front ih =>
    intro lastp token hmid hlast
    have hf : f.more_available = true := hmid f (List.mem_cons_self f front)
    have hfront : ∀ p ∈ front, p.more_available = true :=
      fun p hp => hmid p (List.mem_cons_of_mem f hp)
    have ihh := ih lastp f.last_token hfront hlast
    rw [List.cons_append, List.map_cons]
    simp only [listRun, queryResult, okReply]
    rw [if_pos hf, ihh]
    simp [prependItems]

theorem listRun_all_more_none (fan_id : Nat) (identity url : String) (now : Int) :
    ∀ (pages : List QueryResponseData) (token : String),
      (∀ p ∈ pages, p.more_available = true) →
      listRun fan_id identity url token now (pages.map okReply) = none := by
  intro pages
  induction pages with
  | nil =>
    intro token hall
    rfl
  | cons f pages ih =>
    intro token hall
    have hf : f.more_available = true := hall f (List.mem_cons_self f pages)
    have hrest : ∀ p ∈ pages, p.more_available = true :=
      fun p hp => hall p (List.mem_cons_of_mem f hp)
    simp [listRun, queryResult, okReply, hf, ih f.last_token hrest]

theorem listRun_tokens (fan_id : Nat) (identity url : String) (now : Int) :
    ∀ (script : List ServerReply) (token : String) (reqs : List OutboundRequest)
      (res : Except QueryError (List QueryItem)),
      listRun fan_id identity url token now script = some (reqs, res) →
      (∀ r, reqs.get? 0 = some r → r.body.token = token) ∧
      (∀ (i st : Nat) (page : QueryResponseData) (r : OutboundRequest),
        script.get? i = some (ServerReply.response st (Except.ok page)) →
        reqs.get? (i + 1) = some r → r.body.token = page.last_token) := by
  intro script
  induction script with
  | nil =>
    intro token reqs res h
    simp [listRun] at h
  | cons reply rest ih =>
    intro token reqs res h
    simp only [listRun] at h
    cases hq : queryResult reply with
    | error e =>
      rw [hq] at h
      simp only [Option.some.injEq, Prod.mk.injEq] at h
      obtain ⟨h1, -⟩ := h
      constructor
      · intro r hr
        rw [← h1] at hr
        simp only [List.get?_cons_zero, Option.some.injEq] at hr
        subst hr
        rfl
      · intro i st page r hscript hreq
        rw [← h1] at hreq
        simp [List.get?_cons_succ] at hreq
    | ok page =>
      rw [hq] at h
      dsimp only at h
      by_cases hm : page.more_available = true
      · rw [if_pos hm] at h
        rcases hrec : listRun fan_id identity url page.last_token now rest with - | ⟨reqs', res'⟩
        · rw [hrec] at h
          simp at h
        · rw [hrec] at h
          simp only [Option.map_some', Option.some.injEq, Prod.mk.injEq] at h
          obtain ⟨h1, -⟩ := h
          obtain ⟨ihhead, ihstep⟩ := ih page.last_token reqs' res' hrec
          constructor
          · intro r hr
            rw [← h1] at hr
            simp only [List.get?_cons_zero, Option.some.injEq] at hr
            subst hr
            rfl
          · intro i st page0 r hscript hreq
            rw [← h1] at hreq
            cases i with
            | zero =>
              have hrep : reply = ServerReply.response st (Except.ok page0) := by
                simpa using hscript
              subst hrep
              have hpage : page0 = page := by
                simpa [queryResult] using hq
              rw [List.get?_cons_succ] at hreq
              rw [hpage]
              exact ihhead r hreq
            | succ n =>
              rw [List.get?_cons_succ] at hscript
              rw [List.get?_cons_succ] at hreq
              exact ihstep n st page0 r hscript hreq
      · rw [if_neg hm] at h
        simp only [Option.some.injEq, Prod.mk.injEq] at h
        obtain ⟨h1, -⟩ := h
        constructor
        · intro r hr
          rw [← h1] at hr
          simp only [List.get?_cons_zero, Option.some.injEq] at hr
          subst hr
          rfl
        · intro i st page0 r hscript hreq
          rw [← h1] at hreq
          simp [List.get?_cons_succ] at hreq

theorem listRun_identity_invariant (fan_id : Nat) (url : String) (now : Int) :
    ∀ (script : List ServerReply) (token id1 id2 : String),
      stripIdentity (listRun fan_id id1 url token now script) =
        stripIdentity (listRun fan_id id2 url token now script) := by
  intro script
  induction script with
  | nil =>
    intro token id1 id2
    rfl
  | cons reply rest ih =>
    intro token id1 id2
    simp only [listRun]
    cases hq : queryResult reply with
    | error e =>
      rfl
    | ok page =>
      dsimp only
      by_cases hm : page.more_available = true
      · rw [if_pos hm, if_pos hm]
        have ihh := ih page.last_token id1 id2
        rcases h1 : listRun fan_id id1 url page.last_token now rest with - | ⟨reqs1, res1⟩
        · rw [h1] at ihh
          rcases h2 : listRun fan_id id2 url page.last_token now rest with - | ⟨reqs2, res2⟩
          · rfl
          · rw [h2] at ihh
            simp [stripIdentity] at ihh
        · rw [h1] at ihh
          rcases h2 : listRun fan_id id2 url page.last_token now rest with - | ⟨reqs2, res2⟩
          · rw [h2] at ihh
            simp [stripIdentity] at ihh
          · rw [h2] at ihh
            simp only [stripIdentity, Option.some.injEq, Prod.mk.injEq] at ihh
            obtain ⟨hreqs, hres⟩ := ihh
            simp only [Option.map_some', stripIdentity, List.map_cons]
            rw [hreqs, hres]
            rfl
      · rw [if_neg hm, if_neg hm]
        rfl

/-! ## Claim theorems -/

/-- C6: every outbound page request built by the engine has `count = 20`
(`QueryRequestData::DEFAULT_COUNT`), for every builder state and at every
point of every `list` run — no caller-facing parameter reaches the field. -/
theorem page_size_constant :
    (∀ (b : QueryBuilder) (now : Int), (b.builtRequest now).body.count = 20) ∧
    (∀ (fan_id : Nat) (identity url token : String) (now : Int)
      (script : List ServerReply) (reqs : List OutboundRequest)
      (res : Except QueryError (List QueryItem)),
      listRun fan_id identity url token now script = some (reqs, res) →
      ∀ r ∈ reqs, r.body.count = 20) := by
  refine ⟨fun b now => rfl, ?_⟩
  intro fan_id identity url token now script reqs res h r hr
  exact (listRun_requests_shape fan_id identity url now script token reqs res h r hr).2.2.2

/-- Witness for C6 at a concrete one-page run. -/
theorem page_size_constant_witness :
    (builtReq 1 "id" (listUrl "collection") "100:0:a::" 100).body.count = 20 :=
  page_size_constant.2 1 "id" (listUrl "collection") "100:0:a::" 100
    [okReply emptyDonePage] [builtReq 1 "id" (listUrl "collection") "100:0:a::" 100]
    (.ok []) rfl _ (List.mem_singleton_self _)

/-- C8: a Collection run is addressed to
`https://bandcamp.com/api/fancollection/1/collection_items`, a Wishlist run
to `https://bandcamp.com/api/fancollection/1/wishlist_items`; the two
endpoints are distinct, and every request of a `list` run carries the URL
built from its resource kind's `COLLECTION_NAME`. -/
theorem resource_kind_routing :
    listUrl Collection.COLLECTION_NAME =
      "https://bandcamp.com/api/fancollection/1/collection_items" ∧
    listUrl Wishlist.COLLECTION_NAME =
      "https://bandcamp.com/api/fancollection/1/wishlist_items" ∧
    listUrl Collection.COLLECTION_NAME ≠ listUrl Wishlist.COLLECTION_NAME ∧
    ∀ (collectionName : String) (fan_id : Nat) (identity : String) (now : Int)
      (script : List ServerReply) (reqs : List OutboundRequest)
      (res : Except QueryError (List QueryItem)),
      list collectionName fan_id identity now script = some (reqs, res) →
      ∀ r ∈ reqs, r.url = listUrl collectionName := by
  refine ⟨rfl, rfl, by decide, ?_⟩
  intro collectionName fan_id identity now script reqs res h r hr
  exact (listRun_requests_shape fan_id identity (listUrl collectionName) now script
    (utc_now_token now) reqs res h r hr).1

/-- Witness for C8 at a concrete one-page Collection run. -/
theorem resource_kind_routing_witness :
    (builtReq 1 "id" (listUrl Collection.COLLECTION_NAME) (utc_now_token 0) 0).url =
      listUrl Collection.COLLECTION_NAME :=
  resource_kind_routing.2.2.2 Collection.COLLECTION_NAME 1 "id" 0
    [okReply emptyDonePage]
    [builtReq 1 "id" (listUrl Collection.COLLECTION_NAME) (utc_now_token 0) 0]
    (.ok []) rfl _ (List.mem_singleton_self _)

/-- C10: when no token was set on the builder, `QueryBuilder::query` still
sends a non-empty token — the freshly generated `utc_now_token()`, the same
synthetic shape a first page request uses. -/
theorem missing_token_fallback (b : QueryBuilder) (now : Int) (h : b.token = none) :
    (b.builtRequest now).body.token = utc_now_token now ∧
    (b.builtRequest now).body.token ≠ "" := by
  have htok : (b.builtRequest now).body.token = utc_now_token now := by
    simp [QueryBuilder.builtRequest, QueryRequestData.new, h]
  refine ⟨htok, ?_⟩
  rw [htok]
  exact utc_now_token_ne_empty now

/-- Witness for C10: a freshly `new`ed builder has no token. -/
theorem missing_token_fallback_witness :
    ((QueryBuilder.new "u").builtRequest 5).body.token = utc_now_token 5 ∧
    ((QueryBuilder.new "u").builtRequest 5).body.token ≠ "" :=
  missing_token_fallback (QueryBuilder.new "u") 5 rfl

/-- C4 counterexample: on `added = "not-a-date"` the deserializer panics
(the `.unwrap()` in `deserialize_rfc2822_datetime`); it does not return the
decode-error outcome the claim describes. -/
theorem rfc2822_unwrap_counterexample :
    deserialize_rfc2822_datetime (JsonValue.str "not-a-date") = DeserResult.panicked ∧
    DeserResult.panicked ≠ DeserResult.err := by
  exact ⟨by decide, by decide⟩

/-- C4 (amended): a string that is not valid RFC-2822 makes the
deserializer panic — no default timestamp is substituted and no error value
is produced for the caller. -/
theorem rfc2822_invalid_input_panics (s : String)
    (h : parse_from_rfc2822 s = none) :
    deserialize_rfc2822_datetime (JsonValue.str s) = DeserResult.panicked := by
  simp [deserialize_rfc2822_datetime, h]

/-- Witness for C4's amended theorem at `"not-a-date"`. -/
theorem rfc2822_invalid_input_panics_witness :
    deserialize_rfc2822_datetime (JsonValue.str "not-a-date") = DeserResult.panicked :=
  rfc2822_invalid_input_panics "not-a-date" (by decide)

/-- C7: a valid RFC-2822 `added` string decodes to exactly the parsed
instant re-expressed in UTC (`with_timezone(&Utc)` preserves the instant). -/
theorem added_decoded_as_utc_instant (s : String) (dt : FixedDateTime)
    (h : parse_from_rfc2822 s = some dt) :
    deserialize_rfc2822_datetime (JsonValue.str s) =
      DeserResult.ok dt.with_timezone_utc ∧
    dt.with_timezone_utc = dt.epochSeconds := by
  refine ⟨?_, rfl⟩
  simp [deserialize_rfc2822_datetime, h]

/-- Witness for C7 at the spec's example `"Mon, 02 Jan 2006 15:04:05 -0700"`,
whose UTC instant is epoch second 1136239445 (2006-01-02 22:04:05 UTC). -/
theorem added_decoded_as_utc_instant_witness :
    deserialize_rfc2822_datetime (JsonValue.str "Mon, 02 Jan 2006 15:04:05 -0700") =
      DeserResult.ok 1136239445 :=
  (added_decoded_as_utc_instant "Mon, 02 Jan 2006 15:04:05 -0700"
    ⟨1136239445, -25200⟩ (by decide)).1

/-- C1: on any finite page sequence in which exactly the last page clears
`more_available`, `list` terminates (the run is `some _`), issues one
request per page, and returns the concatenation of the pages' items in page
order — no re-sorting. -/
theorem list_drains_all_pages (collectionName : String) (fan_id : Nat)
    (identity : String) (now : Int) (front : List QueryResponseData)
    (lastp : QueryResponseData)
    (hmid : ∀ p ∈ front, p.more_available = true)
    (hlast : lastp.more_available = false) :
    list collectionName fan_id identity now ((front ++ [lastp]).map okReply) =
      some ((utc_now_token now :: front.map QueryResponseData.last_token).map
        (fun t => builtReq fan_id identity (listUrl collectionName) t now),
        .ok (((front ++ [lastp]).map QueryResponseData.items).flatten)) ∧
    ((utc_now_token now :: front.map QueryResponseData.last_token).map
      (fun t => builtReq fan_id identity (listUrl collectionName) t now)).length =
      (front ++ [lastp]).length := by
  refine ⟨?_, by simp⟩
  exact listRun_drain fan_id identity (listUrl collectionName) now front lastp
    (utc_now_token now) hmid hlast

/-- Witness for C1: the spec's empty-collection scenario — one page with no
items and `more_available = false` gives an empty result after exactly one
request. -/
theorem list_drains_all_pages_witness :
    list "collection" 1 "id" 100 (([] ++ [emptyDonePage]).map okReply) =
      some ((utc_now_token 100 :: ([] : List QueryResponseData).map
        QueryResponseData.last_token).map
        (fun t => builtReq 1 "id" (listUrl "collection") t 100),
        .ok ((([] ++ [emptyDonePage]).map QueryResponseData.items).flatten)) ∧
    ((utc_now_token 100 :: ([] : List QueryResponseData).map
      QueryResponseData.last_token).map
      (fun t => builtReq 1 "id" (listUrl "collection") t 100)).length =
      (([] : List QueryResponseData) ++ [emptyDonePage]).length :=
  list_drains_all_pages "collection" 1 "id" 100 [] emptyDonePage
    (by simp) rfl

/-- C2: in any successful-so-far fetch sequence performed by `list`, the
first request carries the synthetic token `utc_now_token` built from the
invocation-start wall clock, and request `n+1` carries exactly response
`n`'s `last_token`. -/
theorem cursor_propagation (collectionName : String) (fan_id : Nat)
    (identity : String) (now : Int) (script : List ServerReply)
    (reqs : List OutboundRequest) (res : Except QueryError (List QueryItem))
    (h : list collectionName fan_id identity now script = some (reqs, res)) :
    (∀ r, reqs.get? 0 = some r → r.body.token = utc_now_token now) ∧
    (∀ (i st : Nat) (page : QueryResponseData) (r : OutboundRequest),
      script.get? i = some (ServerReply.response st (Except.ok page)) →
      reqs.get? (i + 1) = some r → r.body.token = page.last_token) :=
  listRun_tokens fan_id identity (listUrl collectionName) now script
    (utc_now_token now) reqs res h

/-- Witness for C2 on the spec's two-page end-to-end scenario. -/
theorem cursor_propagation_witness :
    (builtReq 1 "id" (listUrl "collection") (utc_now_token 100) 100).body.token =
      utc_now_token 100 ∧
    (builtReq 1 "id" (listUrl "collection") "t1" 100).body.token =
      pageAB.last_token := by
  have h := cursor_propagation "collection" 1 "id" 100 sampleScript
    [builtReq 1 "id" (listUrl "collection") (utc_now_token 100) 100,
      builtReq 1 "id" (listUrl "collection") "t1" 100]
    (.ok [itemA, itemB, itemC]) rfl
  exact ⟨h.1 _ rfl, h.2 0 200 pageAB _ rfl rfl⟩

/-- C3: while every reply says `more_available = true` the loop never stops:
for a script of all-continuing pages of any length — empty-items pages
included — the engine consumes the whole script and still demands another
page (`none` = the run outran every finite script; no iteration cap). -/
theorem loop_follows_more_available (collectionName : String) (fan_id : Nat)
    (identity : String) (now : Int) (pages : List QueryResponseData)
    (hall : ∀ p ∈ pages, p.more_available = true) :
    list collectionName fan_id identity now (pages.map okReply) = none :=
  listRun_all_more_none fan_id identity (listUrl collectionName) now pages
    (utc_now_token now) hall

/-- Witness for C3: three empty pages, all flagged `more_available`. -/
theorem loop_follows_more_available_witness :
    list "collection" 1 "id" 100
      ([emptyMorePage, emptyMorePage, emptyMorePage].map okReply) = none :=
  loop_follows_more_available "collection" 1 "id" 100
    [emptyMorePage, emptyMorePage, emptyMorePage] (by decide)

/-- C5 counterexample: a non-2xx HTTP status does not by itself abort
`list`.  The code never calls `error_for_status`, so a 500 response whose
body still decodes is treated as a normal page: the call returns `Ok`
(here an empty item list), not an error. -/
theorem http_error_status_not_fatal :
    list "collection" 7 "session" 0
      [ServerReply.response 500 (Except.ok emptyDonePage)] =
      some ([builtReq 7 "session" (listUrl "collection") (utc_now_token 0) 0],
        Except.ok []) ∧
    (Except.ok ([] : List QueryItem) ≠
      (Except.error QueryError.transport : Except QueryError (List QueryItem))) ∧
    (Except.ok ([] : List QueryItem) ≠
      (Except.error QueryError.decode : Except QueryError (List QueryItem))) :=
  ⟨rfl, fun h => Except.noConfusion h, fun h => Except.noConfusion h⟩

/-- C5 (amended): a transport failure or an undecodable body on any page
aborts the whole run at once: the caller gets the single error wrapping the
cause, accumulated items are discarded, the failing fetch was attempted
exactly once, and nothing after it is ever requested (the result does not
depend on `tail`). -/
theorem fetch_error_aborts_list (fan_id : Nat) (identity url : String) (now : Int) :
    ∀ (front : List QueryResponseData) (bad : ServerReply) (e : QueryError)
      (tail : List ServerReply) (token : String),
      (∀ p ∈ front, p.more_available = true) →
      queryResult bad = .error e →
      listRun fan_id identity url token now (front.map okReply ++ bad :: tail) =
        some ((token :: front.map QueryResponseData.last_token).map
          (fun t => builtReq fan_id identity url t now), .error e) := by
  intro front
  induction front with
  | nil =>
    intro bad e tail token hmid hbad
    simp [listRun, hbad]
  | cons f front ih =>
    intro bad e tail token hmid hbad
    have hf : f.more_available = true := hmid f (List.mem_cons_self f front)
    have ihh := ih bad e tail f.last_token
      (fun p hp => hmid p (List.mem_cons_of_mem f hp)) hbad
    rw [List.map_cons, List.cons_append]
    simp only [listRun, queryResult, okReply]
    rw [if_pos hf, ihh]
    simp [prependItems]

/-- Witness for C5's amended theorem: one good page, then a transport
failure; the pending third reply is never consumed. -/
theorem fetch_error_aborts_list_witness :
    listRun 1 "id" (listUrl "collection") "tk" 100
      ([pageAB].map okReply ++ ServerReply.failure :: [okReply pageC]) =
      some (("tk" :: [pageAB].map QueryResponseData.last_token).map
        (fun t => builtReq 1 "id" (listUrl "collection") t 100),
        .error QueryError.transport) :=
  fetch_error_aborts_list 1 "id" (listUrl "collection") 100 [pageAB]
    ServerReply.failure QueryError.transport [okReply pageC] "tk"
    (by decide) rfl

/-- C9: the identity credential is attached verbatim to every outbound page
request as the cookie, and the engine never looks at it — erasing the
cookie makes two runs with different credentials literally equal. -/
theorem identity_opaque_passthrough :
    (∀ (fan_id : Nat) (identity url token : String) (now : Int)
      (script : List ServerReply) (reqs : List OutboundRequest)
      (res : Except QueryError (List QueryItem)),
      listRun fan_id identity url token now script = some (reqs, res) →
      ∀ r ∈ reqs, r.identityCookie = identity) ∧
    (∀ (fan_id : Nat) (id1 id2 url token : String) (now : Int)
      (script : List ServerReply),
      stripIdentity (listRun fan_id id1 url token now script) =
        stripIdentity (listRun fan_id id2 url token now script)) := by
  constructor
  · intro fan_id identity url token now script reqs res h r hr
    exact (listRun_requests_shape fan_id identity url now script token reqs res
      h r hr).2.1
  · intro fan_id id1 id2 url token now script
    exact listRun_identity_invariant fan_id url now script token id1 id2

/-- Witness for C9 at a concrete one-page run with credential `"secret"`. -/
theorem identity_opaque_passthrough_witness :
    (builtReq 1 "secret" (listUrl "collection") "tk" 0).identityCookie = "secret" :=
  identity_opaque_passthrough.1 1 "secret" (listUrl "collection") "tk" 0
    [okReply emptyDonePage]
    [builtReq 1 "secret" (listUrl "collection") "tk" 0] (.ok []) rfl _
    (List.mem_singleton_self _)

end Camper
